import Mathlib

/-!
Shallow embedding of the eligibility-matching logic of the
cancer_matching_engine repository.

The evaluators under verification live in the frontend component
`StructuredEligibilityDisplay` (src/unnamed/part_003): per-criterion
verdict computations (`getAgeStatus`, `getEcogStatus`, and the inline
ternaries for stage, histology, biomarkers, prior treatment and brain
metastases), in the patient-match form submit handler
(src/unnamed/part_005), and — for the competitor similarity engine,
whose backend implementation is not part of the sources — in
definitions modelled from the specification.

Data types follow src/frontend/src/lib/api.ts.  TypeScript `null |
undefined` becomes `Option`; JavaScript truthiness tests on values that
can be `0`, the empty string or a missing object are modelled exactly
(e.g. `!patientProfile?.age` is true for a missing profile, a `null`
age, and an age of `0`).
-/

namespace CancerMatch

/-- The four field-level verdicts of `StructuredEligibilityDisplay`
(type `MatchStatus` in src/unnamed/part_003). `match` is a Lean keyword,
hence the constructor name `matched`. -/
inductive MatchStatus where
  | matched
  | mismatch
  | unknown
  | warning
deriving DecidableEq

/-- AgeRequirement from api.ts: `{ min: number | null; max: number | null }`. -/
structure AgeRequirement where
  min : Option Int
  max : Option Int
deriving DecidableEq

/-- ECOGRequirement from api.ts. -/
structure ECOGRequirement where
  min : Option Int
  max : Option Int
deriving DecidableEq

/-- ListRequirement from api.ts: `{ allowed: string[]; excluded: string[] }`. -/
structure ListRequirement where
  allowed : List String
  excluded : List String
deriving DecidableEq

/-- The optional `pdl1_expression` record of BiomarkerRequirements. -/
structure PDL1Expression where
  min_tps : Option Int
  max_tps : Option Int
  level : Option String
deriving DecidableEq

/-- BiomarkerRequirements from api.ts; the TypeScript
`Record<string, string[]>` becomes an association list. -/
structure BiomarkerRequirements where
  required_positive : List (String × List String)
  required_negative : List String
  pdl1_expression : Option PDL1Expression
deriving DecidableEq

/-- PriorTreatmentRequirements from api.ts. -/
structure PriorTreatmentRequirements where
  required : List String
  excluded : List String
  max_lines : Option Int
  min_lines : Option Int
  treatment_naive_required : Bool
deriving DecidableEq

/-- BrainMetastasesRequirement from api.ts. -/
structure BrainMetastasesRequirement where
  allowed : Bool
  controlled_only : Bool
  untreated_allowed : Bool
deriving DecidableEq

/-- OrganFunctionRequirements from api.ts. -/
structure OrganFunctionRequirements where
  renal_exclusion : Bool
  hepatic_exclusion : Bool
  creatinine_max : Option Int
  bilirubin_max : Option Int
  notes : Option String
deriving DecidableEq

/-- PriorMalignancyRequirement from api.ts. -/
structure PriorMalignancyRequirement where
  excluded : Bool
  years_lookback : Option Int
  exceptions : List String
deriving DecidableEq

/-- WashoutRequirement from api.ts. -/
structure WashoutRequirement where
  min_days_since_chemo : Option Int
  min_days_since_radiation : Option Int
  min_days_since_surgery : Option Int
  min_days_since_immunotherapy : Option Int
  general_min_days : Option Int
deriving DecidableEq

/-- StructuredEligibility from api.ts. `extraction_confidence` is a
JSON number, embedded as a rational. -/
structure StructuredEligibility where
  age : AgeRequirement
  ecog : ECOGRequirement
  disease_stage : ListRequirement
  histology : ListRequirement
  biomarkers : BiomarkerRequirements
  prior_treatments : PriorTreatmentRequirements
  brain_metastases : BrainMetastasesRequirement
  organ_function : OrganFunctionRequirements
  prior_malignancy : PriorMalignancyRequirement
  washout : WashoutRequirement
  common_exclusions : List String
  extraction_confidence : ℚ
  extraction_notes : List String
deriving DecidableEq

/-- PatientProfile from api.ts. -/
structure PatientProfile where
  cancer_type : String
  histology : Option String
  stage : Option String
  biomarkers : List (String × List String)
  age : Option Int
  ecog_status : Option Int
  prior_treatments : List String
  brain_metastases : Option Bool
  location : Option String
  line_of_therapy : Option String
  brain_mets_status : Option String
  last_treatment_date : Option String
  prior_malignancy : Option Bool
  organ_function_issues : Option Bool
  travel_distance_miles : Option Int
deriving DecidableEq

/-- Lookup in a `Record<string, string[]>` embedded as an association
list: `record[key]` is `undefined` (here `none`) when the key is absent. -/
def lookupBio (record : List (String × List String)) (key : String) :
    Option (List String) :=
  (record.find? (fun kv => kv.1 == key)).map (fun kv => kv.2)

/-- JavaScript `hay.includes(needle)` on strings: `needle` occurs as a
contiguous substring of `hay` (the empty needle always occurs). -/
def strContains (hay needle : String) : Bool :=
  (List.range (hay.data.length + 1)).any
    (fun i => needle.data.isPrefixOf (hay.data.drop i))

/-- ASCII lower-casing of one character, as JavaScript toLowerCase acts
on the ASCII range (the only characters appearing in the evaluated
values). -/
def charToLower (c : Char) : Char :=
  if 65 ≤ c.toNat && c.toNat ≤ 90 then Char.ofNat (c.toNat + 32) else c

/-- ASCII upper-casing of one character, as JavaScript toUpperCase acts
on the ASCII range. -/
def charToUpper (c : Char) : Char :=
  if 97 ≤ c.toNat && c.toNat ≤ 122 then Char.ofNat (c.toNat - 32) else c

/-- JavaScript s.toLowerCase() over the ASCII range. -/
def toLowerStr (s : String) : String := String.mk (s.data.map charToLower)

/-- JavaScript s.toUpperCase() over the ASCII range. -/
def toUpperStr (s : String) : String := String.mk (s.data.map charToUpper)

/-- JavaScript whitespace for trim purposes (space, tab, newline,
carriage return, vertical tab, form feed). -/
def isWhitespaceChar (c : Char) : Bool :=
  c == ' ' || c == '\t' || c == '\n' || c == '\r' || c == '\x0b' || c == '\x0c'

/-- JavaScript s.trim(): strip leading and trailing whitespace. -/
def trimStr (s : String) : String :=
  String.mk (((s.data.dropWhile isWhitespaceChar).reverse.dropWhile
      isWhitespaceChar).reverse)

/-- The generic positive indicators of src/unnamed/part_003. -/
def positiveIndicators : List String := ["positive", "present", "detected", "+"]

/-- The explicit negative indicators of src/unnamed/part_003. -/
def negativeIndicators : List String := ["negative", "wild-type", "not detected", "-"]

/-- getAgeStatus of src/unnamed/part_003 (lines 71-77).  The guard
`!patientProfile?.age` is true when the profile is missing, the age is
`null`, or the age is `0` (JavaScript falsiness). -/
def getAgeStatus (patientProfile : Option PatientProfile)
    (eligibility : StructuredEligibility) : MatchStatus :=
  match patientProfile.bind (fun p => p.age) with
  | none => .unknown
  | some a =>
    if a == 0 then .unknown
    else if (match eligibility.age.min with
             | some m => decide (a < m)
             | none => false) then .mismatch
    else if (match eligibility.age.max with
             | some m => decide (a > m)
             | none => false) then .mismatch
    else .matched

/-- getEcogStatus of src/unnamed/part_003 (lines 80-86): an explicit
`null`/`undefined` check, so ECOG `0` is evaluated, not dropped. -/
def getEcogStatus (patientProfile : Option PatientProfile)
    (eligibility : StructuredEligibility) : MatchStatus :=
  match patientProfile.bind (fun p => p.ecog_status) with
  | none => .unknown
  | some g =>
    if (match eligibility.ecog.max with
        | some m => decide (g > m)
        | none => false) then .mismatch
    else if (match eligibility.ecog.min with
             | some m => decide (g < m)
             | none => false) then .mismatch
    else .matched

/-- The stage ternary of src/unnamed/part_003 (lines 165-173):
case-insensitive (toUpperCase) equality against the allowed list;
`patientProfile?.stage` is falsy for a missing profile, a `null` stage
and the empty string. -/
def stageVerdict (patientProfile : Option PatientProfile)
    (eligibility : StructuredEligibility) : MatchStatus :=
  match patientProfile.bind (fun p => p.stage) with
  | none => .unknown
  | some s =>
    if s == "" then .unknown
    else if eligibility.disease_stage.allowed.any
        (fun t => toUpperStr t == toUpperStr s) then .matched
    else .warning

/-- The histology ternary of src/unnamed/part_003 (lines 181-189):
case-insensitive bidirectional substring containment against the
allowed list. -/
def histologyVerdict (patientProfile : Option PatientProfile)
    (eligibility : StructuredEligibility) : MatchStatus :=
  match patientProfile.bind (fun p => p.histology) with
  | none => .unknown
  | some h =>
    if h == "" then .unknown
    else if eligibility.histology.allowed.any
        (fun t => strContains (toLowerStr t) (toLowerStr h)
               || strContains (toLowerStr h) (toLowerStr t)) then .matched
    else .warning

/-- The required_positive biomarker evaluation of src/unnamed/part_003
(lines 207-225), for one biomarker with its allowed mutation list. -/
def requiredPositiveVerdict (patientProfile : Option PatientProfile)
    (biomarker : String) (mutations : List String) : MatchStatus :=
  match patientProfile.bind (fun p => lookupBio p.biomarkers biomarker) with
  | none => .unknown
  | some pv =>
    let patientValues := pv.map toLowerStr
    let requiredValues := mutations.map toLowerStr
    if positiveIndicators.any (fun q => requiredValues.contains q) then
      if positiveIndicators.any (fun q => patientValues.contains q)
      then .matched else .mismatch
    else if requiredValues.any (fun r => patientValues.contains r) then .matched
    else if positiveIndicators.any (fun q => patientValues.contains q) then .warning
    else .mismatch

/-- The required_negative biomarker evaluation of src/unnamed/part_003
(lines 242-256), for one biomarker. -/
def requiredNegativeVerdict (patientProfile : Option PatientProfile)
    (biomarker : String) : MatchStatus :=
  match patientProfile.bind (fun p => lookupBio p.biomarkers biomarker) with
  | none => .unknown
  | some pv =>
    let patientValues := pv.map toLowerStr
    if negativeIndicators.any (fun n => patientValues.contains n) then .matched
    else if positiveIndicators.any (fun q => patientValues.contains q) then .mismatch
    else .unknown

/-- The treatment-naive ternary of src/unnamed/part_003 (lines 303-309).
`patientProfile?.prior_treatments` is an array whenever the profile is
present (an empty array is truthy), so the verdict is `unknown` only
when the profile itself is missing. -/
def treatmentNaiveVerdict (patientProfile : Option PatientProfile) : MatchStatus :=
  match patientProfile with
  | none => .unknown
  | some p => if p.prior_treatments.length == 0 then .matched else .mismatch

/-- The brain-metastases ternary of src/unnamed/part_003 (lines 358-364):
only the boolean `brain_metastases` field and the trial `allowed` flag
are consulted. -/
def brainMetsVerdict (patientProfile : Option PatientProfile)
    (eligibility : StructuredEligibility) : MatchStatus :=
  match patientProfile.bind (fun p => p.brain_metastases) with
  | none => .unknown
  | some b =>
    if b && !eligibility.brain_metastases.allowed then .mismatch else .matched

/-- The criteria rows `StructuredEligibilityDisplay` can render, one
constructor per `CriteriaItem` element of src/unnamed/part_003. -/
inductive CriterionKind where
  | ageCrit
  | ecogCrit
  | stageCrit
  | histologyCrit
  | requiredPositiveCrit (biomarker : String)
  | requiredNegativeCrit (biomarker : String)
  | pdl1Crit
  | treatmentNaiveCrit
  | maxLinesCrit
  | requiredPriorCrit
  | excludedPriorCrit
  | brainMetsCrit
deriving DecidableEq

/-- The rendered criteria rows of `StructuredEligibilityDisplay`
(src/unnamed/part_003, lines 106-407), each with its verdict, in render
order.  A row appears exactly under the component render guards: the
age and ECOG rows only when `formatAge` / `formatEcog` is non-null
(some bound present, lines 89-104 with `CriteriaItem` line 30), the
stage and histology rows only when the allowed list is non-empty (lines
161, 177), biomarker rows per required entry (lines 207, 242, 273),
prior-treatment rows under their guards (lines 299, 317, 324, 331), and
the brain-metastases row always (line 349). -/
def renderEligibility (eligibility : StructuredEligibility)
    (patientProfile : Option PatientProfile) : List (CriterionKind × MatchStatus) :=
  (if eligibility.age.min.isSome || eligibility.age.max.isSome then
      [(.ageCrit, getAgeStatus patientProfile eligibility)] else [])
  ++ (if eligibility.ecog.min.isSome || eligibility.ecog.max.isSome then
      [(.ecogCrit, getEcogStatus patientProfile eligibility)] else [])
  ++ (if eligibility.disease_stage.allowed.length > 0 then
      [(.stageCrit, stageVerdict patientProfile eligibility)] else [])
  ++ (if eligibility.histology.allowed.length > 0 then
      [(.histologyCrit, histologyVerdict patientProfile eligibility)] else [])
  ++ (if eligibility.biomarkers.required_positive.length > 0
        || eligibility.biomarkers.required_negative.length > 0
        || eligibility.biomarkers.pdl1_expression.isSome then
      eligibility.biomarkers.required_positive.map
        (fun bm => (.requiredPositiveCrit bm.1,
                    requiredPositiveVerdict patientProfile bm.1 bm.2))
      ++ eligibility.biomarkers.required_negative.map
        (fun b => (.requiredNegativeCrit b,
                   requiredNegativeVerdict patientProfile b))
      ++ (if eligibility.biomarkers.pdl1_expression.isSome then
          [(.pdl1Crit, MatchStatus.unknown)] else [])
      else [])
  ++ (if eligibility.prior_treatments.required.length > 0
        || eligibility.prior_treatments.excluded.length > 0
        || eligibility.prior_treatments.treatment_naive_required
        || eligibility.prior_treatments.max_lines.isSome then
      (if eligibility.prior_treatments.treatment_naive_required then
          [(.treatmentNaiveCrit, treatmentNaiveVerdict patientProfile)] else [])
      ++ (if eligibility.prior_treatments.max_lines.isSome then
          [(.maxLinesCrit, MatchStatus.unknown)] else [])
      ++ (if eligibility.prior_treatments.required.length > 0 then
          [(.requiredPriorCrit, MatchStatus.unknown)] else [])
      ++ (if eligibility.prior_treatments.excluded.length > 0 then
          [(.excludedPriorCrit, MatchStatus.unknown)] else [])
      else [])
  ++ [(.brainMetsCrit, brainMetsVerdict patientProfile eligibility)]

/-- handleSubmit of `PatientMatchForm` (src/unnamed/part_005, lines
22-32): reject a description whose trimmed length is below 20 with the
validation error message and without calling `onSubmit`; otherwise call
`onSubmit` with the trimmed description and the trimmed location (or
none when the trimmed location is empty). -/
def handleSubmit (description location : String) :
    Except String (String × Option String) :=
  if (trimStr description).length < 20 then
    .error "Please provide at least 20 characters describing the patient."
  else
    .ok (trimStr description,
         if trimStr location == "" then none else some (trimStr location))

/-- The aggregate eligibility status of api.ts `EligibilityResult`. -/
inductive EligStatus where
  | eligible
  | ineligible
  | uncertain
deriving DecidableEq

/-- Modelled from the spec: the aggregate verdict of the backend
Eligibility Evaluator is not in the sources (only the frontend is under
src); spec section 4.2 states it as "`ineligible` if any hard-mismatch
field exists; `eligible` if all evaluable fields are match/unknown and
at least the hard gating fields are match; otherwise `uncertain`",
here taken over the field verdicts of the rendered criteria. -/
def aggregateStatus (eligibility : StructuredEligibility)
    (patientProfile : Option PatientProfile) : EligStatus :=
  let verdicts := (renderEligibility eligibility patientProfile).map Prod.snd
  if verdicts.contains .mismatch then .ineligible
  else if verdicts.contains .matched && !(verdicts.contains .warning) then .eligible
  else .uncertain

/-- ResearcherTrialProfile from api.ts, consumed by the competitor
similarity engine. -/
structure ResearcherTrialProfile where
  nct_id : Option String
  title : Option String
  phase : Option String
  target_biomarkers : List (String × List String)
  target_stages : List String
  target_histology : List String
  target_locations : List String
  age_range : Option (Int × Int)
  ecog_max : Option Int
  treatment_naive_only : Option Bool
  prior_treatments_excluded : List String
deriving DecidableEq

/-- Modelled from the spec: Jaccard overlap of two finite sets,
cardinality of the intersection over cardinality of the union (spec
section 4.5); the overlap of two empty sets is 0 (spec section 8:
disjoint sets give exactly 0). -/
def jaccard (A B : Finset String) : ℚ :=
  if (A ∪ B).card = 0 then 0
  else ((A ∩ B).card : ℚ) / ((A ∪ B).card : ℚ)

/-- Modelled from the spec: phase ordinals {1:1, 1/2:1.5, 2:2, 2/3:2.5,
3:3, 4:4} of spec section 4.5; any other or missing phase counts as
unspecified. -/
def phaseOrdinal : Option String → Option ℚ
  | some "1" => some 1
  | some "1/2" => some (3/2)
  | some "2" => some 2
  | some "2/3" => some (5/2)
  | some "3" => some 3
  | some "4" => some 4
  | _ => none

/-- Modelled from the spec: phase_proximity = 1 − (ordinal distance /
max ordinal distance 3); an unspecified phase on either side gives the
neutral 0.5 (spec section 4.5). -/
def phaseProximity (p q : Option String) : ℚ :=
  match phaseOrdinal p, phaseOrdinal q with
  | some a, some b => 1 - |a - b| / 3
  | _, _ => 1/2

/-- The similarity weights; the spec requires them configurable rather
than hard-baked into the scoring function. -/
structure SimilarityWeights where
  biomarker : ℚ
  stage : ℚ
  geographic : ℚ
  phase : ℚ
deriving DecidableEq

/-- The default weights of spec section 4.5: biomarker 0.4, stage 0.2,
geographic 0.2, phase 0.2. -/
def defaultWeights : SimilarityWeights :=
  { biomarker := 2/5, stage := 1/5, geographic := 1/5, phase := 1/5 }

/-- The biomarker names a researcher trial profile targets, as a set. -/
def biomarkerNames (profile : ResearcherTrialProfile) : Finset String :=
  (profile.target_biomarkers.map Prod.fst).toFinset

/-- Modelled from the spec: the composite competitor similarity_score
(spec section 4.5) — weighted average of biomarker-name Jaccard, stage
Jaccard, recruiting-state Jaccard and phase proximity.  The backend
implementation is not in the sources. -/
def similarityScore (weights : SimilarityWeights)
    (ref cand : ResearcherTrialProfile) : ℚ :=
  weights.biomarker * jaccard (biomarkerNames ref) (biomarkerNames cand)
  + weights.stage * jaccard ref.target_stages.toFinset cand.target_stages.toFinset
  + weights.geographic
      * jaccard ref.target_locations.toFinset cand.target_locations.toFinset
  + weights.phase * phaseProximity ref.phase cand.phase

/-! Concrete fixtures for witnesses and counterexamples. -/

/-- A trial with no structured constraints at all. -/
def trialBase : StructuredEligibility :=
  { age := { min := none, max := none }
    ecog := { min := none, max := none }
    disease_stage := { allowed := [], excluded := [] }
    histology := { allowed := [], excluded := [] }
    biomarkers :=
      { required_positive := [], required_negative := [], pdl1_expression := none }
    prior_treatments :=
      { required := [], excluded := [], max_lines := none, min_lines := none
        treatment_naive_required := false }
    brain_metastases :=
      { allowed := true, controlled_only := false, untreated_allowed := false }
    organ_function :=
      { renal_exclusion := false, hepatic_exclusion := false
        creatinine_max := none, bilirubin_max := none, notes := none }
    prior_malignancy := { excluded := false, years_lookback := none, exceptions := [] }
    washout :=
      { min_days_since_chemo := none, min_days_since_radiation := none
        min_days_since_surgery := none, min_days_since_immunotherapy := none
        general_min_days := none }
    common_exclusions := []
    extraction_confidence := 1
    extraction_notes := [] }

/-- A patient with every optional field absent. -/
def patientBase : PatientProfile :=
  { cancer_type := "NSCLC", histology := none, stage := none, biomarkers := []
    age := none, ecog_status := none, prior_treatments := []
    brain_metastases := none, location := none, line_of_therapy := none
    brain_mets_status := none, last_treatment_date := none
    prior_malignancy := none, organ_function_issues := none
    travel_distance_miles := none }

/-- A concrete reference trial profile: EGFR L858R, stage IV,
California, phase 2. -/
def refTrialW : ResearcherTrialProfile :=
  { nct_id := none, title := none, phase := some "2"
    target_biomarkers := [("EGFR", ["L858R"])], target_stages := ["IV"]
    target_histology := [], target_locations := ["California"]
    age_range := none, ecog_max := none, treatment_naive_only := none
    prior_treatments_excluded := [] }

/-- A trial that displays a PD-L1 requirement. -/
def trialPdl1 : StructuredEligibility :=
  { trialBase with biomarkers :=
      { required_positive := [], required_negative := []
        pdl1_expression := some { min_tps := some 50, max_tps := none, level := none } } }

/-! Shared helper lemmas. -/

/-- Membership in a conditionally rendered chunk. -/
theorem mem_ite_nil {α : Type} {c : Prop} [Decidable c] {l : List α} {x : α} :
    (x ∈ if c then l else []) ↔ c ∧ x ∈ l := by
  split <;> simp [*]

/-- Bridge between the Bool some/includes combinators of the source and
set membership. -/
theorem any_contains_iff (l m : List String) :
    (l.any (fun q => m.contains q) = true) ↔ ∃ q ∈ l, q ∈ m := by
  simp

/-- Negative form of `any_contains_iff`. -/
theorem any_contains_eq_false (l m : List String) (hn : ¬ ∃ q ∈ l, q ∈ m) :
    l.any (fun q => m.contains q) = false := by
  rw [Bool.eq_false_iff]
  intro hc
  exact hn ((any_contains_iff l m).mp hc)

/-- Jaccard overlap of a non-empty set with itself is 1. -/
theorem jaccard_self (A : Finset String) (h : A ≠ ∅) : jaccard A A = 1 := by
  have hc : A.card ≠ 0 := by simpa [Finset.card_eq_zero] using h
  have hq : (A.card : ℚ) ≠ 0 := Nat.cast_ne_zero.mpr hc
  simp [jaccard, Finset.union_self, Finset.inter_self, hc, div_self hq]

/-! Claim C1: the age field verdict. -/

/-- C1 as stated is false on the code: a 50-year-old patient evaluated
against a trial with both age bounds absent gets verdict match from
`getAgeStatus`, where the claim demands unknown. -/
theorem C1_counterexample :
    ¬ (∀ (p : PatientProfile) (e : StructuredEligibility),
        e.age.min = none → e.age.max = none →
        getAgeStatus (some p) e = .unknown) := by
  intro hclaim
  have h := hclaim { patientBase with age := some 50 } trialBase rfl rfl
  exact absurd h (by decide)

/-- C1 (amended): the age verdict is unknown iff the patient age is
absent or 0 (JavaScript falsiness); when present and non-zero it is
mismatch iff the age is below a specified min or above a specified max,
and match otherwise — in particular, with both bounds absent the
verdict is match, not unknown (the age row is not rendered then). -/
theorem C1_age_verdict (p : PatientProfile) (e : StructuredEligibility) :
    (p.age = none ∨ p.age = some 0 → getAgeStatus (some p) e = .unknown) ∧
    (∀ a : Int, p.age = some a → a ≠ 0 →
      getAgeStatus (some p) e =
        if (∃ m, e.age.min = some m ∧ a < m) ∨ (∃ m, e.age.max = some m ∧ a > m)
        then .mismatch else .matched) := by
  constructor
  · rintro (h | h) <;> simp [getAgeStatus, h]
  · intro a ha h0
    have hb : (a == 0) = false := by simp [h0]
    rcases h1 : e.age.min with _ | m0 <;> rcases h2 : e.age.max with _ | m1
    · simp [getAgeStatus, ha, hb, h1, h2]
    · simp [getAgeStatus, ha, hb, h1, h2]
    · simp [getAgeStatus, ha, hb, h1, h2]
    · simp only [getAgeStatus, ha, hb, h1, h2, Option.bind_some]
      by_cases hlt : a < m0 <;> by_cases hgt : m1 < a <;>
        simp [ha, h0, hlt, hgt]

/-- Witness for C1: a 50-year-old against a trial with no age bounds is
a match. -/
theorem C1_witness :
    getAgeStatus (some { patientBase with age := some 50 }) trialBase = .matched := by
  have h := (C1_age_verdict { patientBase with age := some 50 } trialBase).2
      50 rfl (by decide)
  simpa [trialBase] using h

/-! Claim C2: the ECOG field verdict. -/

/-- C2 as stated is false on the code: a patient with ECOG 1 against a
trial specifying max ECOG 2 is within bounds, so by the claim the
verdict should fall under the unknown-otherwise clause, but
`getEcogStatus` returns match. -/
theorem C2_counterexample :
    ¬ (∀ (p : PatientProfile) (e : StructuredEligibility) (g : Int),
        p.ecog_status = some g →
        (∀ m, e.ecog.max = some m → g ≤ m) →
        (∀ m, e.ecog.min = some m → m ≤ g) →
        getEcogStatus (some p) e = .unknown) := by
  intro hclaim
  have h := hclaim { patientBase with ecog_status := some 1 }
      { trialBase with ecog := { min := none, max := some 2 } } 1 rfl
      (by intro m hm; simp at hm; omega)
      (by intro m hm; simp [trialBase] at hm)
  exact absurd h (by decide)

/-- C2 (amended): the ECOG verdict is unknown iff the patient ECOG is
absent (so a null ECOG against any trial ECOG bound is unknown, never
treated as passing); when present it is mismatch iff it exceeds a
specified max or is below a specified min, and match otherwise. -/
theorem C2_ecog_verdict (p : PatientProfile) (e : StructuredEligibility) :
    (p.ecog_status = none → getEcogStatus (some p) e = .unknown) ∧
    (∀ g : Int, p.ecog_status = some g →
      getEcogStatus (some p) e =
        if (∃ m, e.ecog.max = some m ∧ g > m) ∨ (∃ m, e.ecog.min = some m ∧ g < m)
        then .mismatch else .matched) := by
  constructor
  · intro h
    simp [getEcogStatus, h]
  · intro g hg
    rcases h1 : e.ecog.max with _ | m1 <;> rcases h2 : e.ecog.min with _ | m0
    · simp [getEcogStatus, hg, h1, h2]
    · simp [getEcogStatus, hg, h1, h2]
    · simp [getEcogStatus, hg, h1, h2]
    · simp only [getEcogStatus, hg, h1, h2, Option.bind_some]
      by_cases hgt : m1 < g <;> by_cases hlt : g < m0 <;>
        simp [hg, hgt, hlt]

/-- Witness for C2: a null-ECOG patient against a trial with max ECOG 1
gets verdict unknown. -/
theorem C2_witness :
    getEcogStatus (some patientBase)
      { trialBase with ecog := { min := none, max := some 1 } } = .unknown :=
  (C2_ecog_verdict patientBase
      { trialBase with ecog := { min := none, max := some 1 } }).1 rfl

/-! Claim C3: the stage and histology field verdicts. -/

/-- C3 as stated is false on the code: patient histology "adeno" is not
a member of the allowed list ["adenocarcinoma"] (even case-insensitively),
so the claim demands warning, but the histology ternary uses
bidirectional substring containment and returns match. -/
theorem C3_counterexample :
    ¬ (∀ (p : PatientProfile) (e : StructuredEligibility) (h : String),
        p.histology = some h →
        e.histology.allowed ≠ [] →
        (∀ t ∈ e.histology.allowed, toLowerStr t ≠ toLowerStr h) →
        histologyVerdict (some p) e = .warning) := by
  intro hclaim
  have h := hclaim { patientBase with histology := some "adeno" }
      { trialBase with histology := { allowed := ["adenocarcinoma"], excluded := [] } }
      "adeno" rfl (by decide) (by decide)
  exact absurd h (by decide)

/-- C3 (amended): the stage and histology rows are only rendered when
the allowed list is non-empty; an absent (or empty) patient value gives
unknown; a present stage matches iff it equals some allowed value
case-insensitively, and otherwise gives warning, never hard mismatch; a
present histology matches iff it and some allowed value contain one
another as case-insensitive substrings, and otherwise gives warning. -/
theorem C3_stage_histology_verdict (p : PatientProfile) (e : StructuredEligibility) :
    (e.disease_stage.allowed = [] →
      ∀ s, (CriterionKind.stageCrit, s) ∉ renderEligibility e (some p)) ∧
    (e.histology.allowed = [] →
      ∀ s, (CriterionKind.histologyCrit, s) ∉ renderEligibility e (some p)) ∧
    (p.stage = none → stageVerdict (some p) e = .unknown) ∧
    (p.histology = none → histologyVerdict (some p) e = .unknown) ∧
    (∀ s, p.stage = some s → s ≠ "" →
      stageVerdict (some p) e =
        if ∃ t ∈ e.disease_stage.allowed, toUpperStr t = toUpperStr s
        then .matched else .warning) ∧
    (∀ h, p.histology = some h → h ≠ "" →
      histologyVerdict (some p) e =
        if ∃ t ∈ e.histology.allowed,
            strContains (toLowerStr t) (toLowerStr h) = true
            ∨ strContains (toLowerStr h) (toLowerStr t) = true
        then .matched else .warning) := by
  refine ⟨?_, ?_, ?_, ?_, ?_, ?_⟩
  · intro hal s
    simp [renderEligibility, mem_ite_nil, List.mem_append, List.mem_map, hal]
  · intro hal s
    simp [renderEligibility, mem_ite_nil, List.mem_append, List.mem_map, hal]
  · intro h
    simp [stageVerdict, h]
  · intro h
    simp [histologyVerdict, h]
  · intro s hs hne
    have hb : (s == "") = false := by simp [hne]
    by_cases hmem : ∃ t ∈ e.disease_stage.allowed, toUpperStr t = toUpperStr s <;>
      simp [stageVerdict, hs, hb, hmem]
  · intro h hh hne
    have hb : (h == "") = false := by simp [hne]
    by_cases hmem : ∃ t ∈ e.histology.allowed,
        strContains (toLowerStr t) (toLowerStr h) = true
        ∨ strContains (toLowerStr h) (toLowerStr t) = true <;>
      simp [histologyVerdict, hh, hb, hmem]

/-- Witness for C3: patient stage "iv" against allowed stages ["IV"] is
a case-insensitive match. -/
theorem C3_witness :
    stageVerdict (some { patientBase with stage := some "iv" })
      { trialBase with disease_stage := { allowed := ["IV"], excluded := [] } }
      = .matched := by
  have h := (C3_stage_histology_verdict { patientBase with stage := some "iv" }
      { trialBase with disease_stage := { allowed := ["IV"], excluded := [] } }).2.2.2.2.1
      "iv" rfl (by decide)
  rw [h, if_pos (by decide)]

/-! Claim C4: required_positive biomarker evaluation. -/

/-- Evaluation of the required_positive verdict once the patient data
for the biomarker is present, as the nested source conditionals. -/
theorem requiredPositiveVerdict_char (p : PatientProfile) (b : String)
    (mutations pv : List String) (hpv : lookupBio p.biomarkers b = some pv) :
    requiredPositiveVerdict (some p) b mutations =
      (if positiveIndicators.any (fun q => (mutations.map toLowerStr).contains q) then
        (if positiveIndicators.any (fun q => (pv.map toLowerStr).contains q)
         then .matched else .mismatch)
      else if (mutations.map toLowerStr).any (fun r => (pv.map toLowerStr).contains r)
         then .matched
      else if positiveIndicators.any (fun q => (pv.map toLowerStr).contains q)
         then .warning
      else .mismatch) := by
  unfold requiredPositiveVerdict
  rw [Option.some_bind, hpv]

/-- C4: for a required_positive biomarker with patient data present —
a generic positive indicator in the required set makes any
patient-reported positive indicator sufficient for match; for a
mutation-specific requirement, match exactly when the patient values
intersect the required set (case-insensitively); with no intersection
the verdict is mismatch when the patient reports no generic positive,
and warning when the patient reports only a generic positive. -/
theorem C4_required_positive (p : PatientProfile) (b : String)
    (mutations pv : List String)
    (hpv : lookupBio p.biomarkers b = some pv) :
    ((∃ q ∈ positiveIndicators, q ∈ mutations.map toLowerStr) →
      (∃ q ∈ positiveIndicators, q ∈ pv.map toLowerStr) →
      requiredPositiveVerdict (some p) b mutations = .matched) ∧
    ((¬ ∃ q ∈ positiveIndicators, q ∈ mutations.map toLowerStr) →
      ((requiredPositiveVerdict (some p) b mutations = .matched ↔
          ∃ r ∈ mutations.map toLowerStr, r ∈ pv.map toLowerStr) ∧
       ((¬ ∃ r ∈ mutations.map toLowerStr, r ∈ pv.map toLowerStr) →
          (¬ ∃ q ∈ positiveIndicators, q ∈ pv.map toLowerStr) →
          requiredPositiveVerdict (some p) b mutations = .mismatch) ∧
       ((¬ ∃ r ∈ mutations.map toLowerStr, r ∈ pv.map toLowerStr) →
          (∃ q ∈ positiveIndicators, q ∈ pv.map toLowerStr) →
          requiredPositiveVerdict (some p) b mutations = .warning))) := by
  constructor
  · intro hreq hpat
    rw [requiredPositiveVerdict_char p b mutations pv hpv,
        (any_contains_iff _ _).mpr hreq, (any_contains_iff _ _).mpr hpat]
    simp
  · intro hreq
    have h1 := any_contains_eq_false _ _ hreq
    refine ⟨?_, ?_, ?_⟩
    · by_cases hint : ∃ r ∈ mutations.map toLowerStr, r ∈ pv.map toLowerStr
      · refine iff_of_true ?_ hint
        rw [requiredPositiveVerdict_char p b mutations pv hpv, h1,
            (any_contains_iff _ _).mpr hint]
        simp
      · refine iff_of_false ?_ hint
        have h2 := any_contains_eq_false _ _ hint
        by_cases hpat : ∃ q ∈ positiveIndicators, q ∈ pv.map toLowerStr
        · rw [requiredPositiveVerdict_char p b mutations pv hpv, h1, h2,
              (any_contains_iff _ _).mpr hpat]
          simp
        · rw [requiredPositiveVerdict_char p b mutations pv hpv, h1, h2,
              any_contains_eq_false _ _ hpat]
          simp
    · intro hint hpat
      rw [requiredPositiveVerdict_char p b mutations pv hpv, h1,
          any_contains_eq_false _ _ hint, any_contains_eq_false _ _ hpat]
      simp
    · intro hint hpat
      rw [requiredPositiveVerdict_char p b mutations pv hpv, h1,
          any_contains_eq_false _ _ hint, (any_contains_iff _ _).mpr hpat]
      simp

/-- Witness for C4: a patient reporting EGFR L858R against a trial
requiring EGFR in {L858R, Exon19del} is a match. -/
theorem C4_witness :
    requiredPositiveVerdict
      (some { patientBase with biomarkers := [("EGFR", ["L858R"])] })
      "EGFR" ["L858R", "Exon19del"] = .matched :=
  ((C4_required_positive { patientBase with biomarkers := [("EGFR", ["L858R"])] }
      "EGFR" ["L858R", "Exon19del"] ["L858R"] (by decide)).2
    (by decide)).1.mpr (by decide)

/-! Claim C5: required_negative biomarker evaluation and its effect on
the aggregate status. -/

/-- Evaluation of the required_negative verdict once the patient data
for the biomarker is present, as the source conditionals. -/
theorem requiredNegativeVerdict_char (p : PatientProfile) (b : String)
    (pv : List String) (hpv : lookupBio p.biomarkers b = some pv) :
    requiredNegativeVerdict (some p) b =
      (if negativeIndicators.any (fun n => (pv.map toLowerStr).contains n)
       then .matched
       else if positiveIndicators.any (fun q => (pv.map toLowerStr).contains q)
       then .mismatch
       else .unknown) := by
  unfold requiredNegativeVerdict
  rw [Option.some_bind, hpv]

/-- A biomarker listed as required_negative always yields a rendered
criteria row carrying its verdict. -/
theorem mem_render_required_negative (e : StructuredEligibility)
    (pp : Option PatientProfile) (b : String)
    (hb : b ∈ e.biomarkers.required_negative) :
    (CriterionKind.requiredNegativeCrit b, requiredNegativeVerdict pp b)
      ∈ renderEligibility e pp := by
  have hlen : 0 < e.biomarkers.required_negative.length :=
    List.length_pos.mpr (List.ne_nil_of_mem hb)
  unfold renderEligibility
  refine List.mem_append_left _
    (List.mem_append_left _ (List.mem_append_right _ ?_))
  refine mem_ite_nil.mpr ⟨by simp [hlen], ?_⟩
  exact List.mem_append_left _
    (List.mem_append_right _ (List.mem_map.mpr ⟨b, hb, rfl⟩))

/-- Any rendered mismatch row forces the spec-modelled aggregate status
to ineligible. -/
theorem aggregate_ineligible_of_mismatch (e : StructuredEligibility)
    (pp : Option PatientProfile) (k : CriterionKind)
    (hmem : (k, MatchStatus.mismatch) ∈ renderEligibility e pp) :
    aggregateStatus e pp = .ineligible := by
  have hv : MatchStatus.mismatch ∈ (renderEligibility e pp).map Prod.snd :=
    List.mem_map.mpr ⟨(k, .mismatch), hmem, rfl⟩
  have hc : ((renderEligibility e pp).map Prod.snd).contains .mismatch = true := by
    simpa using hv
  simp only [aggregateStatus]
  rw [hc]
  simp

/-- C5: for a required_negative biomarker with patient data present,
the verdict is match when the patient reports an explicit
negative/wild-type indicator, mismatch when the patient reports a
positive indicator (and no negative one), and unknown otherwise; a
mismatching required_negative biomarker makes the aggregate status
ineligible. -/
theorem C5_required_negative (p : PatientProfile) (e : StructuredEligibility)
    (b : String) (pv : List String)
    (hpv : lookupBio p.biomarkers b = some pv) :
    ((∃ n ∈ negativeIndicators, n ∈ pv.map toLowerStr) →
      requiredNegativeVerdict (some p) b = .matched) ∧
    ((¬ ∃ n ∈ negativeIndicators, n ∈ pv.map toLowerStr) →
      (∃ q ∈ positiveIndicators, q ∈ pv.map toLowerStr) →
      requiredNegativeVerdict (some p) b = .mismatch) ∧
    ((¬ ∃ n ∈ negativeIndicators, n ∈ pv.map toLowerStr) →
      (¬ ∃ q ∈ positiveIndicators, q ∈ pv.map toLowerStr) →
      requiredNegativeVerdict (some p) b = .unknown) ∧
    (b ∈ e.biomarkers.required_negative →
      requiredNegativeVerdict (some p) b = .mismatch →
      aggregateStatus e (some p) = .ineligible) := by
  refine ⟨?_, ?_, ?_, ?_⟩
  · intro hneg
    rw [requiredNegativeVerdict_char p b pv hpv, (any_contains_iff _ _).mpr hneg]
    simp
  · intro hneg hpos
    rw [requiredNegativeVerdict_char p b pv hpv, any_contains_eq_false _ _ hneg,
        (any_contains_iff _ _).mpr hpos]
    simp
  · intro hneg hpos
    rw [requiredNegativeVerdict_char p b pv hpv, any_contains_eq_false _ _ hneg,
        any_contains_eq_false _ _ hpos]
    simp
  · intro hb hmis
    exact aggregate_ineligible_of_mismatch e (some p) _
      (hmis ▸ mem_render_required_negative e (some p) b hb)

/-- Witness for C5: a patient reporting EGFR positive against a trial
requiring EGFR negative is ineligible. -/
theorem C5_witness :
    aggregateStatus
      { trialBase with biomarkers :=
          { required_positive := [], required_negative := ["EGFR"]
            pdl1_expression := none } }
      (some { patientBase with biomarkers := [("EGFR", ["positive"])] })
      = .ineligible := by
  have h := C5_required_negative
      { patientBase with biomarkers := [("EGFR", ["positive"])] }
      { trialBase with biomarkers :=
          { required_positive := [], required_negative := ["EGFR"]
            pdl1_expression := none } }
      "EGFR" ["positive"] (by decide)
  exact h.2.2.2 (by decide) (h.2.1 (by decide) (by decide))

/-! Claim C6: the brain-metastases field verdict. -/

/-- C6 as stated is false on the code: a patient with stable brain
metastases (brain_metastases true, brain_mets_status "stable") against
a trial disallowing brain metastases gets verdict mismatch, though the
metastases are not active — the code only consults the boolean. -/
theorem C6_counterexample :
    ¬ (∀ (p : PatientProfile) (e : StructuredEligibility),
        brainMetsVerdict (some p) e = .mismatch →
        p.brain_mets_status = some "active" ∧
          e.brain_metastases.allowed = false) := by
  intro hclaim
  have h := (hclaim
      { patientBase with brain_metastases := some true
                         brain_mets_status := some "stable" }
      { trialBase with brain_metastases :=
          { allowed := false, controlled_only := false
            untreated_allowed := false } }
      (by decide)).1
  exact absurd h (by decide)

/-- C6 (amended): the brain-metastases verdict is unknown iff the
boolean brain_metastases field is absent; with the boolean present it
is mismatch iff the patient has brain metastases and the trial
disallows them, regardless of the active/stable distinction; neither
brain_mets_status nor controlled_only is consulted. -/
theorem C6_brain_mets_verdict (p : PatientProfile) (e : StructuredEligibility) :
    (p.brain_metastases = none → brainMetsVerdict (some p) e = .unknown) ∧
    (∀ bm, p.brain_metastases = some bm →
      brainMetsVerdict (some p) e =
        (if bm = true ∧ e.brain_metastases.allowed = false
         then .mismatch else .matched)) ∧
    (∀ (p2 : PatientProfile) (e2 : StructuredEligibility),
      p2.brain_metastases = p.brain_metastases →
      e2.brain_metastases.allowed = e.brain_metastases.allowed →
      brainMetsVerdict (some p2) e2 = brainMetsVerdict (some p) e) := by
  refine ⟨?_, ?_, ?_⟩
  · intro h
    simp [brainMetsVerdict, h]
  · intro bm hbm
    cases bm <;> cases hal : e.brain_metastases.allowed <;>
      simp [brainMetsVerdict, hbm, hal]
  · intro p2 e2 hp he
    unfold brainMetsVerdict
    rw [Option.some_bind, Option.some_bind, hp, he]

/-- Witness for C6: a patient with brain metastases against a trial
disallowing them gets verdict mismatch. -/
theorem C6_witness :
    brainMetsVerdict (some { patientBase with brain_metastases := some true })
      { trialBase with brain_metastases :=
          { allowed := false, controlled_only := false
            untreated_allowed := false } }
      = .mismatch := by
  have h := (C6_brain_mets_verdict
      { patientBase with brain_metastases := some true }
      { trialBase with brain_metastases :=
          { allowed := false, controlled_only := false
            untreated_allowed := false } }).2.1 true rfl
  simpa using h

/-! Claim C7: minimum-length validation of the free-text form. -/

/-- C7: a description whose trimmed length is below 20 is rejected with
the validation error before any matching request (the submit callback
is never reached); a trimmed length of 20 or more passes this check. -/
theorem C7_min_length (description location : String) :
    ((trimStr description).length < 20 →
      handleSubmit description location =
        .error "Please provide at least 20 characters describing the patient.") ∧
    (20 ≤ (trimStr description).length →
      ∃ out, handleSubmit description location = .ok out) := by
  constructor
  · intro h
    simp [handleSubmit, h]
  · intro h
    refine ⟨(trimStr description,
        if trimStr location == "" then none else some (trimStr location)), ?_⟩
    simp [handleSubmit, Nat.not_lt.mpr h]

/-- Witness for C7: a too-short description is rejected. -/
theorem C7_witness :
    handleSubmit "  too short  " "Boston" =
      .error "Please provide at least 20 characters describing the patient." :=
  (C7_min_length "  too short  " "Boston").1 (by decide)

/-! Claim C8: the unknown-propagation invariants. -/

/-- C8 as stated is false on the code: with both trial-side age bounds
absent, a patient with a present age gets verdict match — the absent
constraint does not surface as unknown. -/
theorem C8_counterexample :
    ¬ (∀ (p : PatientProfile) (e : StructuredEligibility) (a : Int),
        p.age = some a → e.age.min = none → e.age.max = none →
        getAgeStatus (some p) e ≠ .matched) := by
  intro hclaim
  exact hclaim { patientBase with age := some 40 } trialBase 40 rfl rfl rfl
    (by decide)

/-- C8 (amended): an absent patient-side value yields unknown, never
match or mismatch, for every evaluated criterion; but an absent
trial-side bound merely imposes no restriction — with both bounds
absent and a patient value present, the age and ECOG verdicts are
match, not unknown. -/
theorem C8_unknown_invariant (p : PatientProfile) (e : StructuredEligibility) :
    (p.age = none → getAgeStatus (some p) e = .unknown) ∧
    (p.ecog_status = none → getEcogStatus (some p) e = .unknown) ∧
    (p.stage = none → stageVerdict (some p) e = .unknown) ∧
    (p.histology = none → histologyVerdict (some p) e = .unknown) ∧
    (∀ b mutations, lookupBio p.biomarkers b = none →
      requiredPositiveVerdict (some p) b mutations = .unknown) ∧
    (∀ b, lookupBio p.biomarkers b = none →
      requiredNegativeVerdict (some p) b = .unknown) ∧
    treatmentNaiveVerdict none = .unknown ∧
    (p.brain_metastases = none → brainMetsVerdict (some p) e = .unknown) ∧
    (∀ a : Int, p.age = some a → a ≠ 0 → e.age.min = none → e.age.max = none →
      getAgeStatus (some p) e = .matched) ∧
    (∀ g : Int, p.ecog_status = some g → e.ecog.min = none → e.ecog.max = none →
      getEcogStatus (some p) e = .matched) := by
  refine ⟨?_, ?_, ?_, ?_, ?_, ?_, rfl, ?_, ?_, ?_⟩
  · intro h
    simp [getAgeStatus, h]
  · intro h
    simp [getEcogStatus, h]
  · intro h
    simp [stageVerdict, h]
  · intro h
    simp [histologyVerdict, h]
  · intro b mutations h
    simp [requiredPositiveVerdict, h]
  · intro b h
    simp [requiredNegativeVerdict, h]
  · intro h
    simp [brainMetsVerdict, h]
  · intro a ha h0 h1 h2
    have hb : (a == 0) = false := by simp [h0]
    simp [getAgeStatus, ha, hb, h1, h2]
  · intro g hg h1 h2
    simp [getEcogStatus, hg, h1, h2]

/-- Witness for C8: a fully unknown patient gets verdict unknown on the
age criterion. -/
theorem C8_witness :
    getAgeStatus (some patientBase) trialBase = .unknown :=
  (C8_unknown_invariant patientBase trialBase).1 rfl

/-! Claim C9: self-similarity of the competitor score (spec-modelled —
the similarity engine is not in the sources). -/

/-- C9: the competitor similarity_score of a reference trial profile
against an exact copy of itself is 1 under the default weights (0.4
biomarker, 0.2 stage, 0.2 geographic, 0.2 phase), whenever the profile
specifies at least one target biomarker, stage and location (Jaccard of
identical non-empty sets is 1) and a recognised phase (phase_proximity
of equal specified phases is 1). -/
theorem C9_self_similarity (ref : ResearcherTrialProfile)
    (hb : biomarkerNames ref ≠ ∅)
    (hs : ref.target_stages.toFinset ≠ ∅)
    (hg : ref.target_locations.toFinset ≠ ∅)
    (hp : (phaseOrdinal ref.phase).isSome = true) :
    similarityScore defaultWeights ref ref = 1 := by
  obtain ⟨a, ha⟩ := Option.isSome_iff_exists.mp hp
  have hpp : phaseProximity ref.phase ref.phase = 1 := by
    simp [phaseProximity, ha]
  unfold similarityScore
  rw [jaccard_self _ hb, jaccard_self _ hs, jaccard_self _ hg, hpp]
  norm_num [defaultWeights]

/-- Witness for C9: the concrete reference profile scores 1 against
itself. -/
theorem C9_witness : similarityScore defaultWeights refTrialW refTrialW = 1 :=
  C9_self_similarity refTrialW (by decide) (by decide) (by decide) (by decide)

/-! Claim C10: criteria displayed but never evaluated. -/

/-- C10: the PD-L1 expression row and the prior-treatment max_lines,
required and excluded rows always carry verdict unknown, for every
trial and every patient — no patient input can turn them into match or
mismatch. -/
theorem C10_never_evaluated (e : StructuredEligibility)
    (pp : Option PatientProfile) :
    (∀ s, (CriterionKind.pdl1Crit, s) ∈ renderEligibility e pp →
      s = .unknown) ∧
    (∀ s, (CriterionKind.maxLinesCrit, s) ∈ renderEligibility e pp →
      s = .unknown) ∧
    (∀ s, (CriterionKind.requiredPriorCrit, s) ∈ renderEligibility e pp →
      s = .unknown) ∧
    (∀ s, (CriterionKind.excludedPriorCrit, s) ∈ renderEligibility e pp →
      s = .unknown) := by
  refine ⟨?_, ?_, ?_, ?_⟩ <;>
    exact fun s hs => by
      simp [renderEligibility, mem_ite_nil, List.mem_append, List.mem_map] at hs
      tauto

/-- Witness for C10: the PD-L1 row of a trial requiring TPS at least 50
is rendered with verdict unknown. -/
theorem C10_witness :
    (CriterionKind.pdl1Crit, MatchStatus.unknown) ∈ renderEligibility trialPdl1 none ∧
    MatchStatus.unknown = MatchStatus.unknown :=
  ⟨by decide, (C10_never_evaluated trialPdl1 none).1 MatchStatus.unknown (by decide)⟩

end CancerMatch
